import Mathlib

/-!
# Retrying fetch helper of `src/app/script.mjs`

A shallow embedding of `fetchWithRetry` (lines 5-22 of `src/app/script.mjs`) and the
properties of its retry loop.

The function is asynchronous and talks to the network and the console.  It is embedded
with explicit state passing: a `World` holds the number of transport calls made so far and
the chronological list of observable events (transport calls, console lines, timers).  The
network is a deterministic mock transport that answers the `j`-th call (counted from `0`)
with a fixed settlement of the promise returned by `fetch`.
-/

namespace ArbiFund

/-! ## Data model -/

/-- Request options handed to `fetch` unchanged (`{}` is the empty list). -/
abbrev Options := List (String × String)

/-- Settlement of the promise returned by `response.text()`. -/
inductive BodyRead where
  | resolved (text : String)
  | rejected (message : String)
  deriving DecidableEq, Repr

/-- The part of a node-fetch `Response` that `fetchWithRetry` looks at. -/
structure Response where
  status : Nat
  body : BodyRead
  deriving DecidableEq, Repr

/-- The getter `response.ok` of the imported node-fetch library, which follows the Fetch
standard: true exactly when the status is in the range 200-299.  The library is not part of
the repository; `fetchWithRetry` only reads this getter and, for its message, `status`. -/
def Response.ok (response : Response) : Bool :=
  200 ≤ response.status && response.status < 300

/-- Settlement of the promise returned by `fetch(url, options)`. -/
inductive FetchResult where
  | rejected (message : String)
  | resolved (response : Response)
  deriving DecidableEq, Repr

/-- A deterministic mock transport: the settlement of the `j`-th call (from `0`) given the
url and options it was called with. -/
abbrev Transport := Nat → String → Options → FetchResult

/-- Observable events of a run, in the order they happen. -/
inductive Event where
  | fetch (url : String) (options : Options)
  | consoleError (line : String)
  | consoleLog (line : String)
  | setTimeout (ms : Nat)
  deriving DecidableEq, Repr

/-- Number of transport calls made so far and the events observed so far. -/
structure World where
  calls : Nat
  trace : List Event
  deriving DecidableEq, Repr

/-- A JavaScript `Error` built by `new Error(message)`: a message and, since the constructor
is never given an options argument here, no `cause`. -/
structure JsError where
  message : String
  cause : Option String
  deriving DecidableEq, Repr

/-- Settlement of the promise returned by `fetchWithRetry`. -/
inductive Outcome where
  | returned (text : String)
  | undefined
  | threw (error : JsError)
  deriving DecidableEq, Repr

/-- What the `try` block of one iteration does: it either executes its `return` statement
with the promise of `response.text()`, or throws an error that the `catch` clause receives. -/
inductive TryResult where
  | returns (promise : BodyRead)
  | caught (error : JsError)
  deriving DecidableEq, Repr

/-! ## Operations -/

/-- Append one event to the trace. -/
def World.emit (w : World) (e : Event) : World :=
  { w with trace := w.trace ++ [e] }

/-- The call `await fetch(url, options)` against the mock transport. -/
def callFetch (fetch : Transport) (url : String) (options : Options) (w : World) :
    FetchResult × World :=
  (fetch w.calls url options, { calls := w.calls + 1, trace := w.trace ++ [Event.fetch url options] })

/-- Lines 8-11: the body of the `try` block, given the settlement of `fetch`. -/
def tryBlock : FetchResult → TryResult
  | FetchResult.rejected message => TryResult.caught { message := message, cause := none }
  | FetchResult.resolved response =>
    if !response.ok then
      TryResult.caught
        { message := "HTTP error! status: " ++ toString response.status, cause := none }
    else
      TryResult.returns response.body

/-- The promise returned by `fetchWithRetry` after `return response.text()`: it follows the
promise of `response.text()`.  That promise is not awaited inside the `try` block, so its
rejection does not pass through the `catch` clause. -/
def settle : BodyRead → Outcome
  | BodyRead.resolved text => Outcome.returned text
  | BodyRead.rejected message => Outcome.threw { message := message, cause := none }

/-- Line 13: the diagnostic line of a failed attempt. -/
def attemptFailedLine (i : Nat) (error : JsError) : String :=
  "Attempt " ++ toString (i + 1) ++ " failed. " ++ error.message

/-- Line 15: the line announcing the backoff. -/
def retryingLine (backoff : Nat) : String :=
  "Retrying in " ++ toString backoff ++ "ms..."

/-- Line 18: the error thrown when the last attempt has failed. -/
def allAttemptsFailed (retries : Int) : JsError :=
  { message := "All " ++ toString retries ++ " attempts failed.", cause := none }

/-- Lines 6-21: the `for` loop, from loop counter `i` on. -/
def fetchLoop (fetch : Transport) (url : String) (options : Options) (retries : Int)
    (backoff : Nat) (i : Nat) (w : World) : Outcome × World :=
  if (i : Int) < retries then
    match callFetch fetch url options w with
    | (result, w1) =>
      match tryBlock result with
      | TryResult.returns promise => (settle promise, w1)
      | TryResult.caught error =>
        let w2 := w1.emit (Event.consoleError (attemptFailedLine i error))
        if (i : Int) < retries - 1 then
          let w3 := w2.emit (Event.consoleLog (retryingLine backoff))
          let w4 := w3.emit (Event.setTimeout backoff)
          fetchLoop fetch url options retries backoff (i + 1) w4
        else
          (Outcome.threw (allAttemptsFailed retries), w2)
  else
    (Outcome.undefined, w)
termination_by (retries - i).toNat
decreasing_by omega

/-- Line 5: `fetchWithRetry(url, options = {}, retries = 3, backoff = 3000)`, run against the
mock transport `fetch` from a fresh world. -/
def fetchWithRetry (fetch : Transport) (url : String) (options : Options := [])
    (retries : Int := 3) (backoff : Nat := 3000) : Outcome × World :=
  fetchLoop fetch url options retries backoff 0 { calls := 0, trace := [] }

/-- Line 25 of `main`. -/
def etherscanApiKey : String := "YOUR_ETHERSCAN_API_KEY"

/-- Line 26 of `main`. -/
def contractAddress : String := "DEPLOYED_CONTRACT_ADDRESS"

/-- Line 30 of `main`. -/
def abiUrl : String :=
  "https://api-sepolia.etherscan.io/api?module=contract&action=getabi&address=" ++
    contractAddress ++ "&apikey=" ++ etherscanApiKey

/-- Line 33: the call `fetchWithRetry(abiUrl)` made by `main`. -/
def mainFetch (fetch : Transport) : Outcome × World :=
  fetchWithRetry fetch abiUrl

/-- Line 5, for a call made in a world where transport calls and events have already
happened, for instance through an earlier call.  The loop counter is the local `let i = 0`
of the call, and the function reads and writes no variable outside its own parameters and
locals, so the loop starts at `0` in whatever world the call is made. -/
def fetchWithRetryIn (fetch : Transport) (url : String) (options : Options) (retries : Int)
    (backoff : Nat) (w : World) : Outcome × World :=
  fetchLoop fetch url options retries backoff 0 w

/-- Two calls of `fetchWithRetry` with the same arguments, one after the other: the second
call is made in the world that the first call left. -/
def callTwice (fetch : Transport) (url : String) (options : Options) (retries : Int)
    (backoff : Nat) (w : World) : (Outcome × World) × (Outcome × World) :=
  let first := fetchWithRetryIn fetch url options retries backoff w
  (first, fetchWithRetryIn fetch url options retries backoff first.2)

/-! ## Observations on a trace -/

/-- The durations of the timers started, in order. -/
def sleeps : List Event → List Nat
  | [] => []
  | Event.setTimeout ms :: rest => ms :: sleeps rest
  | _ :: rest => sleeps rest

/-- A step of the retry schedule: a transport call or a backoff sleep. -/
inductive Step where
  | attempt
  | sleep (ms : Nat)
  deriving DecidableEq, Repr

/-- The transport calls and sleeps of a trace, in order, console lines left out. -/
def schedule : List Event → List Step
  | [] => []
  | Event.fetch _ _ :: rest => Step.attempt :: schedule rest
  | Event.setTimeout ms :: rest => Step.sleep ms :: schedule rest
  | _ :: rest => schedule rest

/-- The lines written with `console.error`, in order. -/
def errorLines : List Event → List String
  | [] => []
  | Event.consoleError line :: rest => line :: errorLines rest
  | _ :: rest => errorLines rest

/-- The attempt fails in the sense of the retry loop: the transport call is rejected, or it
completes with a response whose `ok` is false. -/
def AttemptFails : FetchResult → Prop
  | FetchResult.rejected _ => True
  | FetchResult.resolved response => response.ok = false

instance decidableAttemptFails (r : FetchResult) : Decidable (AttemptFails r) := by
  cases r <;> simp only [AttemptFails] <;> infer_instance

/-- The error that the `catch` clause receives for a failed attempt. -/
def failureCause : FetchResult → JsError
  | FetchResult.rejected message => { message := message, cause := none }
  | FetchResult.resolved response =>
    { message := "HTTP error! status: " ++ toString response.status, cause := none }

/-- The events of a failed attempt that is followed by a retry. -/
def retryEvents (fetch : Transport) (url : String) (options : Options) (backoff : Nat)
    (i : Nat) : List Event :=
  [Event.fetch url options,
   Event.consoleError (attemptFailedLine i (failureCause (fetch i url options))),
   Event.consoleLog (retryingLine backoff),
   Event.setTimeout backoff]

/-- The events of the failed attempt after which the loop gives up. -/
def lastEvents (fetch : Transport) (url : String) (options : Options) (i : Nat) : List Event :=
  [Event.fetch url options,
   Event.consoleError (attemptFailedLine i (failureCause (fetch i url options)))]

/-- The events of `m` failed attempts, the first with loop counter `i`, each followed by a
retry. -/
def retryTrace (fetch : Transport) (url : String) (options : Options) (backoff : Nat) :
    Nat → Nat → List Event
  | _, 0 => []
  | i, m + 1 => retryEvents fetch url options backoff i ++
      retryTrace fetch url options backoff (i + 1) m

/-! ## Mock transports of the scenarios -/

/-- Every call completes with HTTP 503. -/
def always503 : Transport :=
  fun _ _ _ => FetchResult.resolved { status := 503, body := BodyRead.resolved "" }

/-- Calls 1 and 2 complete with HTTP 500, later calls with HTTP 200 and body `ok-body`. -/
def okOnThird : Transport :=
  fun j _ _ =>
    if j < 2 then FetchResult.resolved { status := 500, body := BodyRead.resolved "" }
    else FetchResult.resolved { status := 200, body := BodyRead.resolved "ok-body" }

/-- The first call completes with HTTP 500, later calls are refused by the network. -/
def refusedOnSecond : Transport :=
  fun j _ _ =>
    if j < 1 then FetchResult.resolved { status := 500, body := BodyRead.resolved "" }
    else FetchResult.rejected "connect ECONNREFUSED"

/-- The first call completes with HTTP 500, later calls with HTTP 503. -/
def unavailableOnSecond : Transport :=
  fun j _ _ =>
    if j < 1 then FetchResult.resolved { status := 500, body := BodyRead.resolved "" }
    else FetchResult.resolved { status := 503, body := BodyRead.resolved "" }

/-- Every call completes with HTTP 200, and reading the body then fails. -/
def brokenBody : Transport :=
  fun _ _ _ => FetchResult.resolved { status := 200, body := BodyRead.rejected "Premature close" }

/-- Every call completes with HTTP 304 and body `cached`. -/
def notModified : Transport :=
  fun _ _ _ => FetchResult.resolved { status := 304, body := BodyRead.resolved "cached" }

/-- A mock that replays one sequence for ever: of every three calls the first two complete
with HTTP 500 and the third with HTTP 200 and body `ok-body`. -/
def okEveryThird : Transport :=
  fun j _ _ =>
    if j % 3 < 2 then FetchResult.resolved { status := 500, body := BodyRead.resolved "" }
    else FetchResult.resolved { status := 200, body := BodyRead.resolved "ok-body" }

/-! ## One iteration of the loop -/

theorem tryBlock_of_fails {r : FetchResult} (h : AttemptFails r) :
    tryBlock r = TryResult.caught (failureCause r) := by
  cases r with
  | rejected message => rfl
  | resolved response =>
    simp only [AttemptFails] at h
    simp [tryBlock, failureCause, h]

theorem tryBlock_of_ok {response : Response} (h : response.ok = true) :
    tryBlock (FetchResult.resolved response) = TryResult.returns response.body := by
  simp [tryBlock, h]

theorem fetchLoop_exit (fetch : Transport) (url : String) (options : Options) (retries : Int)
    (backoff i : Nat) (w : World) (h : ¬ (i : Int) < retries) :
    fetchLoop fetch url options retries backoff i w = (Outcome.undefined, w) := by
  rw [fetchLoop, if_neg h]

theorem fetchLoop_retry (fetch : Transport) (url : String) (options : Options) (retries : Int)
    (backoff i : Nat) (trace : List Event) (hi : (i : Int) < retries - 1)
    (hf : AttemptFails (fetch i url options)) :
    fetchLoop fetch url options retries backoff i { calls := i, trace := trace } =
      fetchLoop fetch url options retries backoff (i + 1)
        { calls := i + 1, trace := trace ++ retryEvents fetch url options backoff i } := by
  have h1 : (i : Int) < retries := by omega
  rw [fetchLoop, if_pos h1]
  simp [callFetch, tryBlock_of_fails hf, hi, World.emit, retryEvents]

theorem fetchLoop_last (fetch : Transport) (url : String) (options : Options) (retries : Int)
    (backoff i : Nat) (trace : List Event) (hi : (i : Int) = retries - 1)
    (hf : AttemptFails (fetch i url options)) :
    fetchLoop fetch url options retries backoff i { calls := i, trace := trace } =
      (Outcome.threw (allAttemptsFailed retries),
        { calls := i + 1, trace := trace ++ lastEvents fetch url options i }) := by
  have h1 : (i : Int) < retries := by omega
  have h2 : ¬ (i : Int) < retries - 1 := by omega
  rw [fetchLoop, if_pos h1]
  simp [callFetch, tryBlock_of_fails hf, h2, World.emit, lastEvents]

theorem fetchLoop_ok (fetch : Transport) (url : String) (options : Options) (retries : Int)
    (backoff i : Nat) (trace : List Event) (hi : (i : Int) < retries) (response : Response)
    (hr : fetch i url options = FetchResult.resolved response) (hok : response.ok = true) :
    fetchLoop fetch url options retries backoff i { calls := i, trace := trace } =
      (settle response.body, { calls := i + 1, trace := trace ++ [Event.fetch url options] }) := by
  rw [fetchLoop, if_pos hi]
  simp [callFetch, hr, tryBlock_of_ok hok]

/-- After `m` failed attempts that are not the last, the loop is at counter `i + m`. -/
theorem fetchLoop_retries (fetch : Transport) (url : String) (options : Options)
    (retries : Int) (backoff : Nat) (m : Nat) :
    ∀ (i : Nat) (trace : List Event), ((i + m : Nat) : Int) < retries →
      (∀ j, j < m → AttemptFails (fetch (i + j) url options)) →
      fetchLoop fetch url options retries backoff i { calls := i, trace := trace } =
        fetchLoop fetch url options retries backoff (i + m)
          { calls := i + m, trace := trace ++ retryTrace fetch url options backoff i m } := by
  induction m with
  | zero => intro i trace _ _; simp [retryTrace]
  | succ m ih =>
    intro i trace hlt hf
    have h0 : AttemptFails (fetch i url options) := by simpa using hf 0 (Nat.succ_pos m)
    have hi : (i : Int) < retries - 1 := by push_cast at hlt; omega
    rw [fetchLoop_retry fetch url options retries backoff i trace hi h0]
    have hlt2 : ((i + 1 + m : Nat) : Int) < retries := by push_cast at hlt ⊢; omega
    rw [ih (i + 1) _ hlt2 (fun j hj => by
      have := hf (j + 1) (Nat.succ_lt_succ hj)
      rwa [show i + (j + 1) = i + 1 + j by omega] at this)]
    simp [retryTrace, show i + 1 + m = i + (m + 1) by omega, List.append_assoc]

/-! ## Whole runs -/

/-- All `n + 1` attempts fail: the run, event by event. -/
theorem fetchWithRetry_all_fail (fetch : Transport) (url : String) (options : Options)
    (n backoff : Nat) (hf : ∀ j, j < n + 1 → AttemptFails (fetch j url options)) :
    fetchWithRetry fetch url options ((n + 1 : Nat) : Int) backoff =
      (Outcome.threw (allAttemptsFailed ((n + 1 : Nat) : Int)),
        { calls := n + 1,
          trace := retryTrace fetch url options backoff 0 n ++ lastEvents fetch url options n }) := by
  have h := fetchLoop_retries fetch url options ((n + 1 : Nat) : Int) backoff n 0 []
    (by push_cast; omega) (fun j hj => by simpa using hf j (by omega))
  simp only [Nat.zero_add, List.nil_append] at h
  rw [fetchWithRetry, h,
    fetchLoop_last fetch url options _ backoff n _ (by push_cast; omega) (hf n (by omega))]

/-- Attempts `0 .. k - 1` fail and attempt `k` completes with an `ok` response: the run,
event by event. -/
theorem fetchWithRetry_first_ok (fetch : Transport) (url : String) (options : Options)
    (retries : Int) (backoff k : Nat) (hk : (k : Int) < retries)
    (hf : ∀ j, j < k → AttemptFails (fetch j url options)) (response : Response)
    (hr : fetch k url options = FetchResult.resolved response) (hok : response.ok = true) :
    fetchWithRetry fetch url options retries backoff =
      (settle response.body,
        { calls := k + 1,
          trace := retryTrace fetch url options backoff 0 k ++ [Event.fetch url options] }) := by
  have h := fetchLoop_retries fetch url options retries backoff k 0 []
    (by simpa using hk) (fun j hj => by simpa using hf j hj)
  simp only [Nat.zero_add, List.nil_append] at h
  rw [fetchWithRetry, h, fetchLoop_ok fetch url options retries backoff k _ hk response hr hok]

/-! ## Observations on the traces of whole runs -/

theorem sleeps_append (xs ys : List Event) : sleeps (xs ++ ys) = sleeps xs ++ sleeps ys := by
  induction xs with
  | nil => rfl
  | cons e rest ih => cases e <;> simp [sleeps, ih]

theorem schedule_append (xs ys : List Event) :
    schedule (xs ++ ys) = schedule xs ++ schedule ys := by
  induction xs with
  | nil => rfl
  | cons e rest ih => cases e <;> simp [schedule, ih]

theorem errorLines_append (xs ys : List Event) :
    errorLines (xs ++ ys) = errorLines xs ++ errorLines ys := by
  induction xs with
  | nil => rfl
  | cons e rest ih => cases e <;> simp [errorLines, ih]

theorem sleeps_retryTrace (fetch : Transport) (url : String) (options : Options)
    (backoff m : Nat) :
    ∀ i, sleeps (retryTrace fetch url options backoff i m) = List.replicate m backoff := by
  induction m with
  | zero => intro i; rfl
  | succ m ih =>
    intro i
    simp [retryTrace, retryEvents, sleeps, sleeps_append, ih, List.replicate_succ]

theorem schedule_retryTrace (fetch : Transport) (url : String) (options : Options)
    (backoff m : Nat) :
    ∀ i, schedule (retryTrace fetch url options backoff i m) ++ [Step.attempt] =
      List.intersperse (Step.sleep backoff) (List.replicate (m + 1) Step.attempt) := by
  induction m with
  | zero => intro i; rfl
  | succ m ih =>
    intro i
    have h : schedule (retryTrace fetch url options backoff i (m + 1)) ++ [Step.attempt] =
        Step.attempt :: Step.sleep backoff ::
          (schedule (retryTrace fetch url options backoff (i + 1) m) ++ [Step.attempt]) := by
      simp [retryTrace, retryEvents, schedule_append, schedule]
    rw [h, ih (i + 1)]
    simp only [List.replicate_succ, List.intersperse_cons₂]

theorem exists_succ_of_one_le (retries : Int) (hn : 1 ≤ retries) :
    ∃ n : Nat, retries = ((n + 1 : Nat) : Int) :=
  ⟨(retries - 1).toNat, by push_cast; omega⟩

/-- All `retries ≥ 1` attempts fail: the run, event by event. -/
theorem fetchWithRetry_exhausted (fetch : Transport) (url : String) (options : Options)
    (retries : Int) (backoff : Nat) (hn : 1 ≤ retries)
    (hf : ∀ j : Nat, (j : Int) < retries → AttemptFails (fetch j url options)) :
    fetchWithRetry fetch url options retries backoff =
      (Outcome.threw (allAttemptsFailed retries),
        { calls := retries.toNat,
          trace := retryTrace fetch url options backoff 0 (retries.toNat - 1) ++
            lastEvents fetch url options (retries.toNat - 1) }) := by
  obtain ⟨n, rfl⟩ := exists_succ_of_one_le retries hn
  rw [fetchWithRetry_all_fail fetch url options n backoff
    (fun j hj => hf j (by push_cast; omega))]
  simp only [Int.toNat_ofNat, Nat.add_sub_cancel]

/-- The loop does not depend on what happened before it: from loop counter `i`, in two
worlds with any earlier calls and events, against two transports that settle the calls still
to come alike, it ends with the same outcome after the same number of transport calls and
the same new events. -/
theorem fetchLoop_history_free (f g : Transport) (url : String) (options : Options)
    (retries : Int) (backoff : Nat) (d : Nat) :
    ∀ (i : Nat) (w w' : World), (retries - i).toNat = d →
      (∀ j : Nat, (i : Int) + j < retries →
        f (w.calls + j) url options = g (w'.calls + j) url options) →
      ∃ (outcome : Outcome) (m : Nat) (events : List Event),
        fetchLoop f url options retries backoff i w =
          (outcome, { calls := w.calls + m, trace := w.trace ++ events }) ∧
        fetchLoop g url options retries backoff i w' =
          (outcome, { calls := w'.calls + m, trace := w'.trace ++ events }) := by
  induction d with
  | zero =>
    intro i w w' hd _
    have h : ¬ (i : Int) < retries := by omega
    rw [fetchLoop_exit f url options retries backoff i _ h,
      fetchLoop_exit g url options retries backoff i _ h]
    exact ⟨Outcome.undefined, 0, [], by simp, by simp⟩
  | succ d ih =>
    intro i w w' hd hfg
    have h : (i : Int) < retries := by omega
    have h0 : f w.calls url options = g w'.calls url options := by
      simpa using hfg 0 (by simpa using h)
    rw [fetchLoop, fetchLoop.eq_1 g, if_pos h, if_pos h]
    simp only [callFetch, h0, World.emit]
    cases tryBlock (g w'.calls url options) with
    | returns promise =>
      exact ⟨settle promise, 1, [Event.fetch url options], rfl, rfl⟩
    | caught error =>
      simp only
      by_cases hi : (i : Int) < retries - 1
      · simp only [if_pos hi]
        have hd1 : (retries - ((i + 1 : Nat) : Int)).toNat = d := by push_cast; omega
        obtain ⟨outcome, m, events, h1, h2⟩ := ih (i + 1)
          { calls := w.calls + 1,
            trace := w.trace ++ [Event.fetch url options] ++
              [Event.consoleError (attemptFailedLine i error)] ++
              [Event.consoleLog (retryingLine backoff)] ++ [Event.setTimeout backoff] }
          { calls := w'.calls + 1,
            trace := w'.trace ++ [Event.fetch url options] ++
              [Event.consoleError (attemptFailedLine i error)] ++
              [Event.consoleLog (retryingLine backoff)] ++ [Event.setTimeout backoff] }
          hd1
          (fun j hj => by
            have := hfg (j + 1) (by push_cast at hj ⊢; omega)
            simpa [Nat.add_assoc, Nat.add_comm 1 j] using this)
        refine ⟨outcome, 1 + m,
          [Event.fetch url options, Event.consoleError (attemptFailedLine i error),
            Event.consoleLog (retryingLine backoff), Event.setTimeout backoff] ++ events, ?_, ?_⟩
        · rw [h1]; simp [Nat.add_assoc]
        · rw [h2]; simp [Nat.add_assoc]
      · simp only [if_neg hi]
        exact ⟨Outcome.threw (allAttemptsFailed retries), 1,
          [Event.fetch url options, Event.consoleError (attemptFailedLine i error)],
          by simp, by simp⟩

/-- A call in the fresh world is the call `fetchWithRetry` of the other results. -/
theorem fetchWithRetryIn_fresh (fetch : Transport) (url : String) (options : Options)
    (retries : Int) (backoff : Nat) :
    fetchWithRetryIn fetch url options retries backoff { calls := 0, trace := [] } =
      fetchWithRetry fetch url options retries backoff := rfl

/-- Whatever the transport does, the loop makes at most `retries` calls in all and every
timer it starts lasts `backoff` milliseconds. -/
theorem fetchLoop_bounds (fetch : Transport) (url : String) (options : Options)
    (retries : Int) (backoff : Nat) (d : Nat) :
    ∀ (i : Nat) (trace : List Event), (retries - i).toNat = d →
      ((fetchLoop fetch url options retries backoff i { calls := i, trace := trace }).2.calls : Int)
          ≤ max retries i ∧
      ∃ m, sleeps
          (fetchLoop fetch url options retries backoff i { calls := i, trace := trace }).2.trace =
        sleeps trace ++ List.replicate m backoff := by
  induction d with
  | zero =>
    intro i trace hd
    have h : ¬ (i : Int) < retries := by omega
    rw [fetchLoop_exit fetch url options retries backoff i _ h]
    exact ⟨le_max_right _ _, 0, by simp⟩
  | succ d ih =>
    intro i trace hd
    have h : (i : Int) < retries := by omega
    rw [fetchLoop, if_pos h]
    simp only [callFetch, World.emit]
    cases tryBlock (fetch i url options) with
    | returns promise =>
      refine ⟨?_, 0, by simp [sleeps_append, sleeps]⟩
      simp only [Nat.cast_add, Nat.cast_one]
      omega
    | caught error =>
      simp only
      split
      · have hd1 : (retries - ((i + 1 : Nat) : Int)).toNat = d := by push_cast; omega
        obtain ⟨hc, m, hm⟩ := ih (i + 1) (trace ++ [Event.fetch url options] ++
          [Event.consoleError (attemptFailedLine i error)] ++
          [Event.consoleLog (retryingLine backoff)] ++ [Event.setTimeout backoff]) hd1
        refine ⟨by push_cast at hc; omega, m + 1, ?_⟩
        rw [hm]
        simp [sleeps_append, sleeps, List.replicate_succ]
      · refine ⟨?_, 0, by simp [sleeps_append, sleeps]⟩
        simp only [Nat.cast_add, Nat.cast_one]
        omega

/-- Every run with `retries ≥ 1` ends in one of two ways: the error `All n attempts failed.`
is thrown, or some attempt completed with an `ok` response and the run settles as the body
read of that response does (fulfilled with the text, or rejected with the read error). -/
theorem fetchLoop_outcome (fetch : Transport) (url : String) (options : Options)
    (retries : Int) (backoff : Nat) (d : Nat) :
    ∀ (i : Nat) (trace : List Event), (retries - i).toNat = d → (i : Int) < retries →
      (fetchLoop fetch url options retries backoff i { calls := i, trace := trace }).1 =
          Outcome.threw (allAttemptsFailed retries) ∨
      ∃ (j : Nat) (response : Response), (j : Int) < retries ∧
        fetch j url options = FetchResult.resolved response ∧ response.ok = true ∧
        (fetchLoop fetch url options retries backoff i { calls := i, trace := trace }).1 =
          settle response.body := by
  induction d with
  | zero => intro i trace hd h; omega
  | succ d ih =>
    intro i trace hd h
    by_cases hf : AttemptFails (fetch i url options)
    · by_cases hi : (i : Int) < retries - 1
      · rw [fetchLoop_retry fetch url options retries backoff i trace hi hf]
        exact ih (i + 1) _ (by push_cast; omega) (by push_cast; omega)
      · rw [fetchLoop_last fetch url options retries backoff i trace (by omega) hf]
        exact Or.inl rfl
    · cases hr : fetch i url options with
      | rejected message => rw [hr] at hf; exact absurd trivial hf
      | resolved response =>
        rw [hr] at hf
        have hok : response.ok = true := by simpa [AttemptFails] using hf
        refine Or.inr ⟨i, response, h, hr, hok, ?_⟩
        rw [fetchLoop_ok fetch url options retries backoff i trace h response hr hok]

/-- The two ways a call with `retries ≥ 1` can end, whatever the transport does. -/
theorem fetchWithRetry_outcome (fetch : Transport) (url : String) (options : Options)
    (retries : Int) (backoff : Nat) (hn : 1 ≤ retries) :
    (fetchWithRetry fetch url options retries backoff).1 =
        Outcome.threw (allAttemptsFailed retries) ∨
    ∃ (j : Nat) (response : Response), (j : Int) < retries ∧
      fetch j url options = FetchResult.resolved response ∧ response.ok = true ∧
      (fetchWithRetry fetch url options retries backoff).1 = settle response.body :=
  fetchLoop_outcome fetch url options retries backoff _ 0 [] rfl
    (by simp only [Nat.cast_zero]; omega)

/-! ## The claims -/

/-- C1: for every `retries = n ≥ 1`, every backoff and every transport whose first `n`
attempts all fail (the call is rejected or the response is not `ok`), `fetchWithRetry` makes
exactly `n` transport calls and then throws the error `All n attempts failed.`; it never
returns a value. -/
theorem C1_all_fail_n_calls_then_throws (fetch : Transport) (url : String) (options : Options)
    (retries : Int) (backoff : Nat) (hn : 1 ≤ retries)
    (hf : ∀ j : Nat, (j : Int) < retries → AttemptFails (fetch j url options)) :
    ((fetchWithRetry fetch url options retries backoff).2.calls : Int) = retries ∧
    (fetchWithRetry fetch url options retries backoff).1 =
      Outcome.threw (allAttemptsFailed retries) ∧
    ∀ text, (fetchWithRetry fetch url options retries backoff).1 ≠ Outcome.returned text := by
  obtain ⟨n, rfl⟩ := exists_succ_of_one_le retries hn
  rw [fetchWithRetry_all_fail fetch url options n backoff
    (fun j hj => hf j (by push_cast; omega))]
  exact ⟨rfl, rfl, fun text h => by cases h⟩

/-- C1 at the scenario of the specification: `retries = 2` against a transport that always
answers HTTP 503. -/
theorem C1_witness_always503 :
    (1 : Int) ≤ 2 ∧
    (∀ j : Nat, (j : Int) < 2 → AttemptFails (always503 j "u" [])) ∧
    (((fetchWithRetry always503 "u" [] 2 10).2.calls : Int) = 2 ∧
      (fetchWithRetry always503 "u" [] 2 10).1 = Outcome.threw (allAttemptsFailed 2) ∧
      ∀ text, (fetchWithRetry always503 "u" [] 2 10).1 ≠ Outcome.returned text) :=
  ⟨by decide, fun _ _ => rfl,
    C1_all_fail_n_calls_then_throws always503 "u" [] 2 10 (by decide) (fun _ _ => rfl)⟩

/-- C2: for every `retries = n ≥ 1` and every `k` with `1 ≤ k ≤ n`, if attempts `1 .. k - 1`
fail and attempt `k` completes with an `ok` response whose body reads as `text`, then
`fetchWithRetry` makes exactly `k` transport calls and returns `text` unchanged. -/
theorem C2_first_success_k_calls_body_verbatim (fetch : Transport) (url : String)
    (options : Options) (retries : Int) (backoff k : Nat) (response : Response) (text : String)
    (hk : 1 ≤ k) (hkn : (k : Int) ≤ retries)
    (hf : ∀ j, j < k - 1 → AttemptFails (fetch j url options))
    (hr : fetch (k - 1) url options = FetchResult.resolved response)
    (hok : response.ok = true) (hbody : response.body = BodyRead.resolved text) :
    (fetchWithRetry fetch url options retries backoff).2.calls = k ∧
    (fetchWithRetry fetch url options retries backoff).1 = Outcome.returned text := by
  rw [fetchWithRetry_first_ok fetch url options retries backoff (k - 1) (by omega)
    hf response hr hok, hbody]
  exact ⟨by simp only; omega, rfl⟩

/-- C2 at `retries = 3`, `k = 3`: two HTTP 500 answers, then HTTP 200 with body `ok-body`. -/
theorem C2_witness_okOnThird :
    1 ≤ 3 ∧ ((3 : Nat) : Int) ≤ 3 ∧
    (∀ j, j < 3 - 1 → AttemptFails (okOnThird j "u" [])) ∧
    okOnThird (3 - 1) "u" [] =
      FetchResult.resolved { status := 200, body := BodyRead.resolved "ok-body" } ∧
    ((fetchWithRetry okOnThird "u" [] 3 10).2.calls = 3 ∧
      (fetchWithRetry okOnThird "u" [] 3 10).1 = Outcome.returned "ok-body") :=
  ⟨by decide, by decide, by decide, rfl,
    C2_first_success_k_calls_body_verbatim okOnThird "u" [] 3 10 3
      { status := 200, body := BodyRead.resolved "ok-body" } "ok-body"
      (by decide) (by decide) (by decide) rfl rfl rfl⟩

/-- C5: for every `retries = n ≥ 1`, when all `n` attempts fail there are exactly `n - 1`
backoff sleeps, each of `backoff` milliseconds, one between each two consecutive transport
calls and none after the last call. -/
theorem C5_all_fail_sleeps_between_attempts (fetch : Transport) (url : String)
    (options : Options) (retries : Int) (backoff : Nat) (hn : 1 ≤ retries)
    (hf : ∀ j : Nat, (j : Int) < retries → AttemptFails (fetch j url options)) :
    sleeps (fetchWithRetry fetch url options retries backoff).2.trace =
      List.replicate (retries.toNat - 1) backoff ∧
    schedule (fetchWithRetry fetch url options retries backoff).2.trace =
      List.intersperse (Step.sleep backoff) (List.replicate retries.toNat Step.attempt) := by
  obtain ⟨n, rfl⟩ := exists_succ_of_one_le retries hn
  rw [fetchWithRetry_all_fail fetch url options n backoff
    (fun j hj => hf j (by push_cast; omega))]
  have hs : schedule (lastEvents fetch url options n) = [Step.attempt] := rfl
  have hl : sleeps (lastEvents fetch url options n) = [] := rfl
  simp only [Int.toNat_ofNat, Nat.add_sub_cancel, sleeps_append, schedule_append,
    sleeps_retryTrace, schedule_retryTrace, hs, hl, List.append_nil]
  exact ⟨trivial, trivial⟩

/-- C5 at the scenario of the specification: `retries = 2`, always HTTP 503, one sleep. -/
theorem C5_witness_always503 :
    (1 : Int) ≤ 2 ∧
    (∀ j : Nat, (j : Int) < 2 → AttemptFails (always503 j "u" [])) ∧
    (sleeps (fetchWithRetry always503 "u" [] 2 10).2.trace =
        List.replicate ((2 : Int).toNat - 1) 10 ∧
      schedule (fetchWithRetry always503 "u" [] 2 10).2.trace =
        List.intersperse (Step.sleep 10) (List.replicate (2 : Int).toNat Step.attempt)) :=
  ⟨by decide, fun _ _ => rfl,
    C5_all_fail_sleeps_between_attempts always503 "u" [] 2 10 (by decide) (fun _ _ => rfl)⟩

/-- C6: for every `retries = n ≥ 1` and `k ≤ n`, when attempt `k` is the first successful
one there are exactly `k - 1` backoff sleeps, each of `backoff` milliseconds, one after each
of the first `k - 1` transport calls and none after call `k`, and the body is returned. -/
theorem C6_first_success_sleeps_before_it (fetch : Transport) (url : String)
    (options : Options) (retries : Int) (backoff k : Nat) (response : Response) (text : String)
    (hk : 1 ≤ k) (hkn : (k : Int) ≤ retries)
    (hf : ∀ j, j < k - 1 → AttemptFails (fetch j url options))
    (hr : fetch (k - 1) url options = FetchResult.resolved response)
    (hok : response.ok = true) (hbody : response.body = BodyRead.resolved text) :
    (fetchWithRetry fetch url options retries backoff).1 = Outcome.returned text ∧
    sleeps (fetchWithRetry fetch url options retries backoff).2.trace =
      List.replicate (k - 1) backoff ∧
    schedule (fetchWithRetry fetch url options retries backoff).2.trace =
      List.intersperse (Step.sleep backoff) (List.replicate k Step.attempt) := by
  rw [fetchWithRetry_first_ok fetch url options retries backoff (k - 1) (by omega)
    hf response hr hok, hbody]
  have hs : schedule [Event.fetch url options] = [Step.attempt] := rfl
  have hl : sleeps [Event.fetch url options] = [] := rfl
  have hk1 : k - 1 + 1 = k := by omega
  simp only [sleeps_append, schedule_append, sleeps_retryTrace, schedule_retryTrace, hs, hl,
    List.append_nil, hk1]
  exact ⟨rfl, trivial, trivial⟩

/-- C6 at the scenario of the specification: `retries = 3`, `backoff = 10`, HTTP 500 on
attempts 1 and 2, HTTP 200 with body `ok-body` on attempt 3: the result is `ok-body` after
two sleeps of 10 ms. -/
theorem C6_witness_okOnThird :
    1 ≤ 3 ∧ ((3 : Nat) : Int) ≤ 3 ∧
    (∀ j, j < 3 - 1 → AttemptFails (okOnThird j "u" [])) ∧
    okOnThird (3 - 1) "u" [] =
      FetchResult.resolved { status := 200, body := BodyRead.resolved "ok-body" } ∧
    ((fetchWithRetry okOnThird "u" [] 3 10).1 = Outcome.returned "ok-body" ∧
      sleeps (fetchWithRetry okOnThird "u" [] 3 10).2.trace = List.replicate (3 - 1) 10 ∧
      schedule (fetchWithRetry okOnThird "u" [] 3 10).2.trace =
        List.intersperse (Step.sleep 10) (List.replicate 3 Step.attempt)) :=
  ⟨by decide, by decide, by decide, rfl,
    C6_first_success_sleeps_before_it okOnThird "u" [] 3 10 3
      { status := 200, body := BodyRead.resolved "ok-body" } "ok-body"
      (by decide) (by decide) (by decide) rfl rfl rfl⟩

/-- C10: for every `retries ≤ 0`, `fetchWithRetry` makes no transport call and no sleep,
observes nothing, and its promise is fulfilled with `undefined`: it neither returns a body
nor throws. -/
theorem C10_nonpositive_retries_completes_undefined (fetch : Transport) (url : String)
    (options : Options) (retries : Int) (backoff : Nat) (h : retries ≤ 0) :
    (fetchWithRetry fetch url options retries backoff).1 = Outcome.undefined ∧
    (fetchWithRetry fetch url options retries backoff).2.calls = 0 ∧
    (fetchWithRetry fetch url options retries backoff).2.trace = [] ∧
    sleeps (fetchWithRetry fetch url options retries backoff).2.trace = [] ∧
    (∀ text, (fetchWithRetry fetch url options retries backoff).1 ≠ Outcome.returned text) ∧
    (fetchWithRetry fetch url options retries backoff).1 ≠
      Outcome.threw (allAttemptsFailed retries) := by
  rw [fetchWithRetry, fetchLoop_exit fetch url options retries backoff 0 _
    (by simp only [Nat.cast_zero]; omega)]
  exact ⟨rfl, rfl, rfl, rfl, fun text h => (nomatch h), fun h => (nomatch h)⟩

/-- C10 at `retries = 0` against a transport that would answer HTTP 200 with `ok-body`. -/
theorem C10_witness_zero_retries :
    (0 : Int) ≤ 0 ∧
    ((fetchWithRetry okOnThird "u" [] 0 10).1 = Outcome.undefined ∧
      (fetchWithRetry okOnThird "u" [] 0 10).2.calls = 0 ∧
      (fetchWithRetry okOnThird "u" [] 0 10).2.trace = [] ∧
      sleeps (fetchWithRetry okOnThird "u" [] 0 10).2.trace = [] ∧
      (∀ text, (fetchWithRetry okOnThird "u" [] 0 10).1 ≠ Outcome.returned text) ∧
      (fetchWithRetry okOnThird "u" [] 0 10).1 ≠ Outcome.threw (allAttemptsFailed 0)) :=
  ⟨by decide, C10_nonpositive_retries_completes_undefined okOnThird "u" [] 0 10 (by decide)⟩

/-- C3, as stated, fails: with `retries = 2` two runs whose first attempts fail alike and
whose last attempts fail for different causes (a refused connection, an HTTP 503) raise the
same error, which names no cause. -/
theorem C3_counterexample_causes_indistinguishable :
    refusedOnSecond 0 "u" [] = unavailableOnSecond 0 "u" [] ∧
    failureCause (refusedOnSecond 1 "u" []) ≠ failureCause (unavailableOnSecond 1 "u" []) ∧
    (fetchWithRetry refusedOnSecond "u" [] 2 10).1 =
      (fetchWithRetry unavailableOnSecond "u" [] 2 10).1 ∧
    (fetchWithRetry refusedOnSecond "u" [] 2 10).1 =
      Outcome.threw { message := "All 2 attempts failed.", cause := none } := by
  have h1 := fetchWithRetry_exhausted refusedOnSecond "u" [] 2 10 (by decide)
    (fun j hj => by
      have hj2 : j < 2 := by omega
      interval_cases j <;> simp [refusedOnSecond, AttemptFails, Response.ok])
  have h2 := fetchWithRetry_exhausted unavailableOnSecond "u" [] 2 10 (by decide)
    (fun j hj => by
      have hj2 : j < 2 := by omega
      interval_cases j <;> simp [unavailableOnSecond, AttemptFails, Response.ok])
  rw [h1, h2]
  exact ⟨rfl, by decide, rfl, by decide⟩

/-- C3, amended: when all `retries = n ≥ 1` attempts fail, the error raised is
`new Error("All n attempts failed.")`; it has no cause and is the same whatever the failures
of the attempts were.  The failure of the last attempt is only written to the diagnostic
log, as the last `console.error` line. -/
theorem C3_raised_error_names_only_retries (f g : Transport) (url : String)
    (options : Options) (retries : Int) (backoff : Nat) (hn : 1 ≤ retries)
    (hf : ∀ j : Nat, (j : Int) < retries → AttemptFails (f j url options))
    (hg : ∀ j : Nat, (j : Int) < retries → AttemptFails (g j url options)) :
    (fetchWithRetry f url options retries backoff).1 =
      Outcome.threw
        { message := "All " ++ toString retries ++ " attempts failed.", cause := none } ∧
    (fetchWithRetry f url options retries backoff).1 =
      (fetchWithRetry g url options retries backoff).1 ∧
    (errorLines (fetchWithRetry f url options retries backoff).2.trace).getLast? =
      some ("Attempt " ++ toString retries.toNat ++ " failed. " ++
        (failureCause (f (retries.toNat - 1) url options)).message) := by
  rw [fetchWithRetry_exhausted f url options retries backoff hn hf,
    fetchWithRetry_exhausted g url options retries backoff hn hg]
  refine ⟨rfl, rfl, ?_⟩
  have hlast : errorLines (lastEvents f url options (retries.toNat - 1)) =
      ["Attempt " ++ toString retries.toNat ++ " failed. " ++
        (failureCause (f (retries.toNat - 1) url options)).message] := by
    simp only [lastEvents, errorLines, attemptFailedLine]
    rw [show retries.toNat - 1 + 1 = retries.toNat by omega]
  simp only [errorLines_append, hlast]
  exact List.getLast?_concat _

/-- C3 amended, at `retries = 2` with the two transports of the counterexample. -/
theorem C3_witness_two_causes :
    (1 : Int) ≤ 2 ∧
    (∀ j : Nat, (j : Int) < 2 → AttemptFails (refusedOnSecond j "u" [])) ∧
    (∀ j : Nat, (j : Int) < 2 → AttemptFails (unavailableOnSecond j "u" [])) ∧
    ((fetchWithRetry refusedOnSecond "u" [] 2 10).1 =
        Outcome.threw
          { message := "All " ++ toString (2 : Int) ++ " attempts failed.", cause := none } ∧
      (fetchWithRetry refusedOnSecond "u" [] 2 10).1 =
        (fetchWithRetry unavailableOnSecond "u" [] 2 10).1 ∧
      (errorLines (fetchWithRetry refusedOnSecond "u" [] 2 10).2.trace).getLast? =
        some ("Attempt " ++ toString (2 : Int).toNat ++ " failed. " ++
          (failureCause (refusedOnSecond ((2 : Int).toNat - 1) "u" [])).message)) := by
  have hf : ∀ j : Nat, (j : Int) < 2 → AttemptFails (refusedOnSecond j "u" []) := fun j hj => by
    have hj2 : j < 2 := by omega
    interval_cases j <;> simp [refusedOnSecond, AttemptFails, Response.ok]
  have hg : ∀ j : Nat, (j : Int) < 2 → AttemptFails (unavailableOnSecond j "u" []) :=
    fun j hj => by
      have hj2 : j < 2 := by omega
      interval_cases j <;> simp [unavailableOnSecond, AttemptFails, Response.ok]
  exact ⟨by decide, hf, hg,
    C3_raised_error_names_only_retries refusedOnSecond unavailableOnSecond "u" [] 2 10
      (by decide) hf hg⟩

/-- C4, at the failing input: with `retries = 3`, when the first call completes with HTTP 200
and the body read then fails, the promise of `fetchWithRetry` is rejected with the body-read
error itself after one transport call; it is neither a returned body nor the error
`All 3 attempts failed.`. -/
theorem C4_body_read_error_reaches_caller :
    (fetchWithRetry brokenBody "u" [] 3 10).1 =
      Outcome.threw { message := "Premature close", cause := none } ∧
    (fetchWithRetry brokenBody "u" [] 3 10).2.calls = 1 ∧
    (fetchWithRetry brokenBody "u" [] 3 10).1 ≠ Outcome.threw (allAttemptsFailed 3) ∧
    ∀ text, (fetchWithRetry brokenBody "u" [] 3 10).1 ≠ Outcome.returned text := by
  rw [fetchWithRetry_first_ok brokenBody "u" [] 3 10 0 (by decide) (fun j hj => by omega)
    { status := 200, body := BodyRead.rejected "Premature close" } rfl rfl]
  exact ⟨rfl, rfl, by decide, fun text h => (nomatch h)⟩

/-- C7, as stated, fails: a call that completes with the 3xx status 304 is treated as a
failed attempt; with `retries = 1` the run throws instead of returning the body `cached`. -/
theorem C7_counterexample_status_304_fails :
    notModified 0 "u" [] =
      FetchResult.resolved { status := 304, body := BodyRead.resolved "cached" } ∧
    (fetchWithRetry notModified "u" [] 1 10).1 =
      Outcome.threw { message := "All 1 attempts failed.", cause := none } ∧
    errorLines (fetchWithRetry notModified "u" [] 1 10).2.trace =
      ["Attempt 1 failed. HTTP error! status: 304"] ∧
    (fetchWithRetry notModified "u" [] 1 10).1 ≠ Outcome.returned "cached" := by
  rw [fetchWithRetry_exhausted notModified "u" [] 1 10 (by decide) (fun _ _ => rfl)]
  exact ⟨rfl, by decide, by decide, fun h => (nomatch h)⟩

/-- C7, amended: the `try` block of an attempt throws into the `catch` clause exactly when
the transport call is rejected or the response has a status outside 200-299 (a 3xx status
counts as a failure); an attempt whose call completes with a status in 200-299 and whose
body reads as `text` ends the loop at once, returning `text`; and a failing attempt is
logged and followed by a sleep and the next attempt, or, if it is the last, by the terminal
error. -/
theorem C7_attempt_fails_iff_not_2xx :
    (∀ result : FetchResult,
      (∃ error, tryBlock result = TryResult.caught error) ↔
        ((∃ message, result = FetchResult.rejected message) ∨
          ∃ response, result = FetchResult.resolved response ∧
            (response.status < 200 ∨ 300 ≤ response.status))) ∧
    (∀ (fetch : Transport) (url : String) (options : Options) (retries : Int)
        (backoff i : Nat) (trace : List Event) (response : Response) (text : String),
      (i : Int) < retries →
      fetch i url options = FetchResult.resolved response →
      200 ≤ response.status → response.status < 300 →
      response.body = BodyRead.resolved text →
      fetchLoop fetch url options retries backoff i { calls := i, trace := trace } =
        (Outcome.returned text,
          { calls := i + 1, trace := trace ++ [Event.fetch url options] })) ∧
    (∀ (fetch : Transport) (url : String) (options : Options) (retries : Int)
        (backoff i : Nat) (trace : List Event),
      (i : Int) < retries →
      ((∃ message, fetch i url options = FetchResult.rejected message) ∨
        ∃ response, fetch i url options = FetchResult.resolved response ∧
          (response.status < 200 ∨ 300 ≤ response.status)) →
      fetchLoop fetch url options retries backoff i { calls := i, trace := trace } =
        if (i : Int) < retries - 1 then
          fetchLoop fetch url options retries backoff (i + 1)
            { calls := i + 1, trace := trace ++
                [Event.fetch url options,
                 Event.consoleError
                   (attemptFailedLine i (failureCause (fetch i url options))),
                 Event.consoleLog (retryingLine backoff),
                 Event.setTimeout backoff] }
        else
          (Outcome.threw (allAttemptsFailed retries),
            { calls := i + 1, trace := trace ++
                [Event.fetch url options,
                 Event.consoleError
                   (attemptFailedLine i (failureCause (fetch i url options)))] })) := by
  refine ⟨fun result => ?_, ?_, ?_⟩
  · cases result with
    | rejected message => simp [tryBlock]
    | resolved response =>
      by_cases h : response.ok = true
      · have h2 := h
        simp only [Response.ok, Bool.and_eq_true, decide_eq_true_eq] at h2
        simp only [tryBlock_of_ok h, false_or, FetchResult.resolved.injEq, exists_eq_left',
          exists_false, false_iff, not_or, not_lt, not_le, reduceCtorEq]
        omega
      · have h2 := h
        simp only [Response.ok, Bool.and_eq_true, decide_eq_true_eq, not_and, not_lt] at h2
        have hf : AttemptFails (FetchResult.resolved response) := by simpa [AttemptFails] using h
        simp only [tryBlock_of_fails hf, TryResult.caught.injEq, exists_eq', false_or,
          FetchResult.resolved.injEq, exists_eq_left', true_iff, reduceCtorEq, exists_false]
        omega
  · intro fetch url options retries backoff i trace response text hi hr h200 h300 hbody
    have hok : response.ok = true := by simp [Response.ok, h200, h300]
    rw [fetchLoop_ok fetch url options retries backoff i trace hi response hr hok, hbody]
    rfl
  · intro fetch url options retries backoff i trace hi hbad
    have hf : AttemptFails (fetch i url options) := by
      rcases hbad with ⟨message, hm⟩ | ⟨response, hr, hs⟩
      · rw [hm]; trivial
      · rw [hr]
        simp only [AttemptFails, Response.ok, Bool.and_eq_false_imp, decide_eq_true_eq,
          decide_eq_false_iff_not, not_lt]
        omega
    by_cases hlt : (i : Int) < retries - 1
    · rw [if_pos hlt, fetchLoop_retry fetch url options retries backoff i trace hlt hf]
      rfl
    · rw [if_neg hlt, fetchLoop_last fetch url options retries backoff i trace (by omega) hf]
      rfl

/-- C7 amended, at the third attempt of the scenario: HTTP 200 with body `ok-body`. -/
theorem C7_witness_status_200_returns :
    ((2 : Nat) : Int) < 3 ∧
    fetchLoop okOnThird "u" [] 3 10 2 { calls := 2, trace := [] } =
      (Outcome.returned "ok-body", { calls := 2 + 1, trace := [] ++ [Event.fetch "u" []] }) :=
  ⟨by decide,
    C7_attempt_fails_iff_not_2xx.2.1 okOnThird "u" [] 3 10 2 []
      { status := 200, body := BodyRead.resolved "ok-body" } "ok-body"
      (by decide) rfl (by decide) (by decide) rfl⟩

/-- C8: a call that omits options, retry count and backoff, as `fetchWithRetry(abiUrl)` in
`main`, is the call `fetchWithRetry(url, {}, 3, 3000)`: it makes at most 3 transport calls,
every sleep lasts 3000 ms, and against a transport whose first 3 attempts fail it makes
exactly 3 calls with 2 sleeps of 3000 ms. -/
theorem C8_defaults_three_attempts_3000ms (fetch : Transport) (url : String) :
    fetchWithRetry fetch url = fetchWithRetry fetch url [] 3 3000 ∧
    mainFetch fetch = fetchWithRetry fetch abiUrl [] 3 3000 ∧
    (fetchWithRetry fetch url).2.calls ≤ 3 ∧
    (∀ ms ∈ sleeps (fetchWithRetry fetch url).2.trace, ms = 3000) ∧
    ((∀ j, j < 3 → AttemptFails (fetch j url [])) →
      (fetchWithRetry fetch url).2.calls = 3 ∧
      sleeps (fetchWithRetry fetch url).2.trace = [3000, 3000] ∧
      (fetchWithRetry fetch url).1 = Outcome.threw (allAttemptsFailed 3)) := by
  refine ⟨rfl, rfl, ?_, ?_, ?_⟩
  · have h := (fetchLoop_bounds fetch url [] 3 3000 3 0 [] (by decide)).1
    simp only [fetchWithRetry]
    omega
  · obtain ⟨m, hm⟩ := (fetchLoop_bounds fetch url [] 3 3000 3 0 [] (by decide)).2
    intro ms hms
    simp only [fetchWithRetry] at hms
    rw [hm] at hms
    simp only [sleeps, List.nil_append] at hms
    exact List.eq_of_mem_replicate hms
  · intro hf
    rw [fetchWithRetry_exhausted fetch url [] 3 3000 (by decide)
      (fun j hj => hf j (by omega))]
    exact ⟨rfl, rfl, rfl⟩

/-- C8 at the call of `main` against a transport that always answers HTTP 503. -/
theorem C8_witness_main_always503 :
    (∀ j, j < 3 → AttemptFails (always503 j abiUrl [])) ∧
    (fetchWithRetry always503 abiUrl).2.calls = 3 ∧
    sleeps (fetchWithRetry always503 abiUrl).2.trace = [3000, 3000] ∧
    (fetchWithRetry always503 abiUrl).1 = Outcome.threw (allAttemptsFailed 3) :=
  ⟨fun _ _ => rfl,
    (C8_defaults_three_attempts_3000ms always503 abiUrl).2.2.2.2 (fun _ _ => rfl)⟩

/-- C9: `fetchWithRetry` is deterministic in its arguments and the transport, and no state
carries over between calls.  First, two calls with the same url, options, retry count and
backoff, made in any two worlds (whatever calls and events came before) against transports
that present the same sequence of attempt outcomes from the call on, end with the same
outcome (the same body or the same error) after the same number of transport calls and the
same new events, sleeps included.  Second, when a call is followed by a second call with the
same arguments and the mock transport replays its sequence of outcomes, the second call
repeats the first: same outcome, same number of calls, same events. -/
theorem C9_same_outcomes_same_run_no_carry_over (url : String) (options : Options)
    (retries : Int) (backoff : Nat) :
    (∀ (f g : Transport) (w w' : World),
      (∀ j : Nat, (j : Int) < retries →
        f (w.calls + j) url options = g (w'.calls + j) url options) →
      ∃ (outcome : Outcome) (m : Nat) (events : List Event),
        fetchWithRetryIn f url options retries backoff w =
          (outcome, { calls := w.calls + m, trace := w.trace ++ events }) ∧
        fetchWithRetryIn g url options retries backoff w' =
          (outcome, { calls := w'.calls + m, trace := w'.trace ++ events })) ∧
    (∀ (f : Transport) (w : World),
      (∀ j : Nat, (j : Int) < retries →
        f ((fetchWithRetryIn f url options retries backoff w).2.calls + j) url options =
          f (w.calls + j) url options) →
      ∃ (outcome : Outcome) (m : Nat) (events : List Event),
        callTwice f url options retries backoff w =
          ((outcome, { calls := w.calls + m, trace := w.trace ++ events }),
           (outcome, { calls := w.calls + m + m, trace := w.trace ++ events ++ events }))) := by
  have general : ∀ (f g : Transport) (w w' : World),
      (∀ j : Nat, (j : Int) < retries →
        f (w.calls + j) url options = g (w'.calls + j) url options) →
      ∃ (outcome : Outcome) (m : Nat) (events : List Event),
        fetchWithRetryIn f url options retries backoff w =
          (outcome, { calls := w.calls + m, trace := w.trace ++ events }) ∧
        fetchWithRetryIn g url options retries backoff w' =
          (outcome, { calls := w'.calls + m, trace := w'.trace ++ events }) :=
    fun f g w w' hfg =>
      fetchLoop_history_free f g url options retries backoff _ 0 w w' rfl
        (fun j hj => hfg j (by simpa using hj))
  refine ⟨general, fun f w hrep => ?_⟩
  obtain ⟨outcome, m, events, h1, h2⟩ :=
    general f f w (fetchWithRetryIn f url options retries backoff w).2
      (fun j hj => (hrep j hj).symm)
  refine ⟨outcome, m, events, ?_⟩
  simp only [callTwice]
  rw [h2, h1]

/-- C9 at two calls in a row with `retries = 3` and `backoff = 10` against the mock that
replays 500, 500, 200 `ok-body`: both calls return `ok-body` after three transport calls. -/
theorem C9_witness_two_calls_in_a_row :
    (∀ j : Nat, (j : Int) < 3 →
      okEveryThird
          ((fetchWithRetryIn okEveryThird "u" [] 3 10 { calls := 0, trace := [] }).2.calls + j)
          "u" [] =
        okEveryThird (0 + j) "u" []) ∧
    (∃ (outcome : Outcome) (m : Nat) (events : List Event),
      callTwice okEveryThird "u" [] 3 10 { calls := 0, trace := [] } =
        ((outcome, { calls := 0 + m,
                     trace := [] ++ events }),
         (outcome, { calls := 0 + m + m,
                     trace := [] ++ events ++ events }))) ∧
    (callTwice okEveryThird "u" [] 3 10 { calls := 0, trace := [] }).1.1 =
      Outcome.returned "ok-body" ∧
    (callTwice okEveryThird "u" [] 3 10 { calls := 0, trace := [] }).1.2.calls = 3 := by
  have hcalls :
      (fetchWithRetryIn okEveryThird "u" [] 3 10 { calls := 0, trace := [] }).2.calls = 3 := by
    simp [fetchWithRetryIn, fetchLoop, callFetch, okEveryThird, tryBlock, Response.ok,
      World.emit]
  have hrep : ∀ j : Nat, (j : Int) < 3 →
      okEveryThird
          ((fetchWithRetryIn okEveryThird "u" [] 3 10 { calls := 0, trace := [] }).2.calls + j)
          "u" [] =
        okEveryThird (0 + j) "u" [] := fun j _ => by
    rw [hcalls]
    simp [okEveryThird]
  refine ⟨hrep,
    (C9_same_outcomes_same_run_no_carry_over "u" [] 3 10).2 okEveryThird
      { calls := 0, trace := [] } hrep, ?_, ?_⟩
  · simp [callTwice, fetchWithRetryIn, fetchLoop, callFetch, okEveryThird, tryBlock,
      Response.ok, World.emit, settle]
  · simp [callTwice, fetchWithRetryIn, fetchLoop, callFetch, okEveryThird, tryBlock,
      Response.ok, World.emit]

end ArbiFund
